import Mathlib

/-!
Verification development for the rita library: 2D/3D weighted Delaunay
triangulation by incremental insertion (half-edge DCEL in 2D, Bowyer-Watson
in 3D).

The Rust source is shallowly embedded:
* machine floats only ever flow into exact sign predicates, so coordinates,
  weights and epsilon are modelled over an arbitrary linearly ordered
  commutative ring (every finite set of f64 values embeds into the rationals,
  an instance); the external predicate oracle (geogram_predicates) returns
  the exact sign of the corresponding determinant, which we define
  concretely;
* Vec indexing that can panic is modelled in the Option monad (none = panic),
  while recoverable anyhow errors are an Except layer (Except.error = Err);
* data-parallel iteration (rayon par_iter + sum) is a deterministic fold,
  which is its observable semantics since no mutation occurs during it.
-/

namespace Rita

/-- A dcel / half-edge vertex node (src/rita/src/node.rs, VertexNode). -/
inductive VertexNode where
  | casual (i : Nat)
  | conceptual
  | deleted
deriving DecidableEq, Repr

/-- VertexNode::idx (src/rita/src/node.rs). -/
def VertexNode.idx : VertexNode → Option Nat
  | .casual i => some i
  | _ => none

/-- VertexNode::is_conceptual (src/rita/src/node.rs). -/
def VertexNode.is_conceptual : VertexNode → Bool
  | .conceptual => true
  | _ => false

/-- VertexNode::is_deleted (src/rita/src/node.rs). -/
def VertexNode.is_deleted : VertexNode → Bool
  | .deleted => true
  | _ => false

/-- A 2D point, `[f64; 2]` in the source, modelled as a pair of scalars. -/
abbrev Vertex2 (α : Type) : Type := α × α

/-- Sign of a scalar, in \x7b-1, 0, +1\x7d, mirroring the i16 sign returned
by the exact predicates. -/
def qsign {α : Type} [LinearOrderedCommRing α] (q : α) : Int :=
  if 0 < q then 1 else if q < 0 then -1 else 0

/-- Exact sign of the 2x2 orientation determinant.  This is the contract of
the external predicate `geogram_predicates::orient_2d`: +1 iff c is strictly
left of the directed line a→b, -1 iff strictly right, 0 iff collinear. -/
def orient_2d {α : Type} [LinearOrderedCommRing α] (a b c : Vertex2 α) : Int :=
  qsign ((b.1 - a.1) * (c.2 - a.2) - (b.2 - a.2) * (c.1 - a.1))

/-- Exact sign of the lifted 3x3 determinant used for the weighted in-power-
circle test, the contract of `geogram_predicates::orient_2dlifted_SOS`:
positive iff the lifted point p (at height h_p) lies strictly below the plane
through the lifted a, b, c, i.e. p is inside the power circle of the weighted
a, b, c when they are in CCW order.  (The SoS tie-breaking of the external
predicate only refines the sign at exact ties, which we keep as 0.) -/
def orient_2dlifted_SOS {α : Type} [LinearOrderedCommRing α]
    (a b c p : Vertex2 α) (h_a h_b h_c h_p : α) : Int :=
  -qsign
    ((b.1 - a.1) * ((c.2 - a.2) * (h_p - h_a) - (p.2 - a.2) * (h_c - h_a))
      - (c.1 - a.1) * ((b.2 - a.2) * (h_p - h_a) - (p.2 - a.2) * (h_b - h_a))
      + (p.1 - a.1) * ((b.2 - a.2) * (h_c - h_a) - (c.2 - a.2) * (h_b - h_a)))

/-- The sentinel usize::MAX used for twins of deleted hedges
(src/rita/src/trids/tri_data_structure.rs, `INACTIVE`).  Any value that is
never a valid index works for the embedding; deleted hedges are skipped by
every reader. -/
def INACTIVE : Nat := 2 ^ 64 - 1

/-- The 2D triangulation data structure
(src/rita/src/trids/tri_data_structure.rs, TriDataStructure). -/
structure TriDataStructure where
  hedge_starting_nodes : List VertexNode
  hedge_twins : List Nat
  num_tris : Nat
  num_deleted_tris : Nat
deriving DecidableEq, Repr

namespace TriDataStructure

/-- TriDataStructure::new. -/
def new : TriDataStructure := ⟨[], [], 0, 0⟩

/-- Read of `hedge_starting_nodes[i]`; total variant used where the embedding
has already established that the index is in bounds. -/
def nodeAt (tds : TriDataStructure) (h : Nat) : VertexNode :=
  tds.hedge_starting_nodes.getD h .deleted

/-- Read of `hedge_twins[i]`; total variant. -/
def twinAt (tds : TriDataStructure) (h : Nat) : Nat :=
  tds.hedge_twins.getD h INACTIVE

/-- Index arithmetic of HedgeIterator::next
(src/rita/src/trids/hedge_iterator.rs): rotate within the triangle. -/
def nextIdx (h : Nat) : Nat := if h % 3 = 2 then h - 2 else h + 1

/-- Index arithmetic of HedgeIterator::prev. -/
def prevIdx (h : Nat) : Nat := if h % 3 = 0 then h + 2 else h - 1

/-- HedgeIterator::starting_node. -/
def starting_node (tds : TriDataStructure) (h : Nat) : VertexNode := tds.nodeAt h

/-- HedgeIterator::end_node: the starting node of the next hedge in the same
triangle (`idx - 2` when `idx % 3 == 2`, else `idx + 1`). -/
def end_node (tds : TriDataStructure) (h : Nat) : VertexNode := tds.nodeAt (nextIdx h)

/-- HedgeIterator::is_sound: `next`, `prev` and `twin` point to the correct
nodes (src/rita/src/trids/hedge_iterator.rs). -/
def hedge_is_sound (tds : TriDataStructure) (h : Nat) : Bool :=
  (tds.starting_node (nextIdx h) == tds.end_node h)
    && (tds.end_node (prevIdx h) == tds.starting_node h)
    && (tds.starting_node (tds.twinAt h) == tds.end_node h
        && tds.end_node (tds.twinAt h) == tds.starting_node h)

/-- TriDataStructure::is_sound: every hedge whose starting node is not
Deleted must be individually sound (src/rita/src/trids/tri_data_structure.rs,
lines 399-411). -/
def is_sound (tds : TriDataStructure) : Bool :=
  (List.range tds.hedge_starting_nodes.length).all fun h =>
    if tds.nodeAt h == .deleted then true else tds.hedge_is_sound h

/-- TriDataStructure::num_tris accessor. -/
def num_tris' (tds : TriDataStructure) : Nat := tds.num_tris

/-- TriDataStructure::add_tri: append the three nodes, bump num_tris, return
the three fresh hedge indices. -/
def add_tri (tds : TriDataStructure) (vn : VertexNode × VertexNode × VertexNode) :
    TriDataStructure × Nat × Nat × Nat :=
  let h0 := tds.hedge_starting_nodes.length
  (⟨tds.hedge_starting_nodes ++ [vn.1, vn.2.1, vn.2.2], tds.hedge_twins,
    tds.num_tris + 1, tds.num_deleted_tris⟩,
   h0, h0 + 1, h0 + 2)

/-- Push one entry on `hedge_twins`. -/
def push_twin (tds : TriDataStructure) (t : Nat) : TriDataStructure :=
  ⟨tds.hedge_starting_nodes, tds.hedge_twins ++ [t], tds.num_tris, tds.num_deleted_tris⟩

/-- Checked write of `hedge_starting_nodes[i] = v`; none models the Rust
panic on an out-of-bounds index. -/
def set_node (tds : TriDataStructure) (i : Nat) (v : VertexNode) :
    Option TriDataStructure :=
  if i < tds.hedge_starting_nodes.length then
    some ⟨tds.hedge_starting_nodes.set i v, tds.hedge_twins, tds.num_tris,
      tds.num_deleted_tris⟩
  else none

/-- Checked write of `hedge_twins[i] = t`; none models the Rust panic on an
out-of-bounds index. -/
def set_twin (tds : TriDataStructure) (i t : Nat) : Option TriDataStructure :=
  if i < tds.hedge_twins.length then
    some ⟨tds.hedge_starting_nodes, tds.hedge_twins.set i t, tds.num_tris,
      tds.num_deleted_tris⟩
  else none

/-- TriDataStructure::replace_tri: overwrite the three node slots of a
triangle in place; returns the slot indices. -/
def replace_tri (tds : TriDataStructure) (idx_to_remove : Nat)
    (v0 v1 v2 : VertexNode) : Option (TriDataStructure × Nat × Nat × Nat) :=
  let i0 := idx_to_remove * 3
  match tds.set_node i0 v0 with
  | none => none
  | some t1 =>
  match t1.set_node (i0 + 1) v1 with
  | none => none
  | some t2 =>
  match t2.set_node (i0 + 2) v2 with
  | none => none
  | some t3 =>
  some (t3, i0, i0 + 1, i0 + 2)

/-- TriDataStructure::add_init_tri (src/rita/src/trids/tri_data_structure.rs,
lines 72-114): seed the structure with the first casual triangle and the
three conceptual triangles closing the hull, wiring all twelve twins. -/
def add_init_tri (tds : TriDataStructure) (v_idxs : Nat × Nat × Nat) :
    Except String TriDataStructure :=
  if tds.num_tris > 0 then
    .error "Triangulation already contains triangles!"
  else
    let a := VertexNode.casual v_idxs.1
    let b := VertexNode.casual v_idxs.2.1
    let c := VertexNode.casual v_idxs.2.2
    let n_inf := VertexNode.conceptual
    let (tds1, hedge01, hedge12, hedge20) := tds.add_tri (a, b, c)
    let (tds2, hedgei2, hedge21, hedge1i) := tds1.add_tri (n_inf, c, b)
    let (tds3, hedge2i, hedgei0, hedge02) := tds2.add_tri (c, n_inf, a)
    let (tds4, hedge10, hedge0i, hedgei1) := tds3.add_tri (b, a, n_inf)
    .ok ((((((((((((tds4.push_twin hedge10).push_twin hedge21).push_twin
      hedge02).push_twin hedge2i).push_twin hedge12).push_twin
      hedgei1).push_twin hedgei2).push_twin hedge0i).push_twin
      hedge20).push_twin hedge01).push_twin hedgei0).push_twin hedge1i)

/-- TriDataStructure::flip_1_to_3 (src/rita/src/trids/tri_data_structure.rs,
lines 117-162).  Returns none where the Rust code would panic on an
out-of-bounds Vec access, Except.error where it returns Err, and on success
the new structure together with the three TriIterator indices it hands back.
-/
def flip_1_to_3 (tds : TriDataStructure) (idx_to_remove v_idx : Nat) :
    Option (Except String (TriDataStructure × (Nat × Nat × Nat))) :=
  if idx_to_remove > tds.num_tris + tds.num_deleted_tris then
    some (.error "Triangle index out of bounds!")
  else
  let hedge_ab0 := idx_to_remove * 3
  let hedge_bc0 := hedge_ab0 + 1
  let hedge_ca0 := hedge_ab0 + 2
  match tds.hedge_starting_nodes[hedge_ab0]? with
  | none => none
  | some a =>
  match tds.hedge_starting_nodes[hedge_bc0]? with
  | none => none
  | some b =>
  match tds.hedge_starting_nodes[hedge_ca0]? with
  | none => none
  | some c =>
  let d := VertexNode.casual v_idx
  match tds.hedge_twins[hedge_ab0]? with
  | none => none
  | some hedge_ba =>
  match tds.hedge_twins[hedge_bc0]? with
  | none => none
  | some hedge_cb =>
  match tds.hedge_twins[hedge_ca0]? with
  | none => none
  | some hedge_ac =>
  match tds.replace_tri idx_to_remove a b d with
  | none => none
  | some (tdsA, hedge_ab, hedge_bd, hedge_da) =>
  let (tdsB, hedge_bc, hedge_cd, hedge_db) := tdsA.add_tri (b, c, d)
  let (tdsC, hedge_ca, hedge_ad, hedge_dc) := tdsB.add_tri (c, a, d)
  match tdsC.set_twin hedge_ba hedge_ab with
  | none => none
  | some t1 =>
  match t1.set_twin hedge_cb hedge_bc with
  | none => none
  | some t2 =>
  match t2.set_twin hedge_ac hedge_ca with
  | none => none
  | some t3 =>
  match t3.set_twin hedge_ab hedge_ba with
  | none => none
  | some t4 =>
  match t4.set_twin hedge_bd hedge_db with
  | none => none
  | some t5 =>
  match t5.set_twin hedge_da hedge_ad with
  | none => none
  | some t6 =>
  let t7 := (((((t6.push_twin hedge_cb).push_twin hedge_dc).push_twin
    hedge_bd).push_twin hedge_ac).push_twin hedge_da).push_twin hedge_cd
  some (.ok (t7, (idx_to_remove, t7.num_tris - 2, t7.num_tris - 1)))

/-- TriDataStructure::get_hedge: bounds-checked retrieval of a hedge
iterator, modelled by its index. -/
def get_hedge (tds : TriDataStructure) (idx : Nat) : Except String Nat :=
  if idx ≥ tds.hedge_starting_nodes.length then .error "Hedge index out of bounds"
  else .ok idx

/-- TriDataStructure::get_tri: bounds-checked retrieval of a triangle
iterator, modelled by its index. -/
def get_tri (tds : TriDataStructure) (idx : Nat) : Except String Nat :=
  if idx ≥ tds.num_tris + tds.num_deleted_tris then .error "Tri index out of bounds!"
  else .ok idx

/-- TriIterator::nodes (src/src/trids/tri_iterator.rs, lines 62-68): the
three corner labels of triangle t are hedge_starting_nodes[3t],
hedge_starting_nodes[3t+1], hedge_starting_nodes[3t+2]; none models the Vec
index panic of a read out of bounds. -/
def tri_nodes (tds : TriDataStructure) (t : Nat) :
    Option (VertexNode × VertexNode × VertexNode) := do
  let n0 ← tds.hedge_starting_nodes[t * 3]?
  let n1 ← tds.hedge_starting_nodes[t * 3 + 1]?
  let n2 ← tds.hedge_starting_nodes[t * 3 + 2]?
  return (n0, n1, n2)

/-- Side selection of flip_2_to_2 (source lines 179-194): given a triangle
base and the hedge of that triangle lying on the shared edge, return the
other two hedges of the triangle in rotation order after the shared one. -/
def flip22_sides (tri_base shared : Nat) : Nat × Nat :=
  let hedge01 := tri_base * 3
  let hedge12 := hedge01 + 1
  let hedge20 := hedge01 + 2
  if hedge01 = shared then (hedge12, hedge20)
  else if hedge12 = shared then (hedge20, hedge01)
  else (hedge01, hedge12)

/-- TriDataStructure::flip_2_to_2 (src/rita/src/trids/tri_data_structure.rs,
lines 165-226): rewires the two triangles around an interior edge in place,
flipping the shared diagonal.  On success returns the new structure and the
two TriIterator indices handed back (the same two slots). -/
def flip_2_to_2 (tds : TriDataStructure) (idx : Nat) :
    Option (TriDataStructure × (Nat × Nat)) :=
  match tds.hedge_twins[idx]? with
  | none => none
  | some hedge_twin_idx =>
  let tri1_idx := idx / 3
  let tri2_idx := hedge_twin_idx / 3
  let ab_bc := flip22_sides tri1_idx idx
  let cd_da := flip22_sides tri2_idx hedge_twin_idx
  match tds.hedge_starting_nodes[ab_bc.1]? with
  | none => none
  | some na =>
  match tds.hedge_starting_nodes[ab_bc.2]? with
  | none => none
  | some nb =>
  match tds.hedge_starting_nodes[cd_da.1]? with
  | none => none
  | some nc =>
  match tds.hedge_starting_nodes[cd_da.2]? with
  | none => none
  | some nd =>
  match tds.hedge_twins[ab_bc.1]? with
  | none => none
  | some hedge_ba =>
  match tds.hedge_twins[ab_bc.2]? with
  | none => none
  | some hedge_cb =>
  match tds.hedge_twins[cd_da.1]? with
  | none => none
  | some hedge_dc =>
  match tds.hedge_twins[cd_da.2]? with
  | none => none
  | some hedge_ad =>
  match tds.replace_tri tri1_idx nb nc nd with
  | none => none
  | some (tdsA, hedge_bc, hedge_cd, hedge_db) =>
  match tdsA.replace_tri tri2_idx nd na nb with
  | none => none
  | some (tdsB, hedge_da, hedge_ab, hedge_bd) =>
  match tdsB.set_twin hedge_ab hedge_ba with
  | none => none
  | some t1 =>
  match t1.set_twin hedge_da hedge_ad with
  | none => none
  | some t2 =>
  match t2.set_twin hedge_bc hedge_cb with
  | none => none
  | some t3 =>
  match t3.set_twin hedge_cd hedge_dc with
  | none => none
  | some t4 =>
  match t4.set_twin hedge_bd hedge_db with
  | none => none
  | some t5 =>
  match t5.set_twin hedge_db hedge_bd with
  | none => none
  | some t6 =>
  match t6.set_twin hedge_ba hedge_ab with
  | none => none
  | some t7 =>
  match t7.set_twin hedge_ad hedge_da with
  | none => none
  | some t8 =>
  match t8.set_twin hedge_cb hedge_bc with
  | none => none
  | some t9 =>
  match t9.set_twin hedge_dc hedge_cd with
  | none => none
  | some t10 =>
  some (t10, (tri1_idx, tri2_idx))

/-- Helper of the 3->1 flip (TriDataStructure::set_tri_inactive): tombstone a
triangle, setting its nodes to Deleted and its twins to the INACTIVE
sentinel.  The leading bounds check models the `get_tri(..).unwrap()` of the
source, which panics for an out-of-range triangle index. -/
def set_tri_inactive (tds : TriDataStructure) (triangle_idx : Nat) :
    Option TriDataStructure :=
  if triangle_idx ≥ tds.num_tris + tds.num_deleted_tris then none
  else
  match tds.set_node (triangle_idx * 3) .deleted with
  | none => none
  | some t1 =>
  match t1.set_node (triangle_idx * 3 + 1) .deleted with
  | none => none
  | some t2 =>
  match t2.set_node (triangle_idx * 3 + 2) .deleted with
  | none => none
  | some t3 =>
  match t3.set_twin (triangle_idx * 3) INACTIVE with
  | none => none
  | some t4 =>
  match t4.set_twin (triangle_idx * 3 + 1) INACTIVE with
  | none => none
  | some t5 =>
  t5.set_twin (triangle_idx * 3 + 2) INACTIVE

/-- Body of the selection loop of the 3->1 flip: inspect one hedge; if its
start and end both differ from the reflex node, record its starting node and
twin index, else keep the accumulator.  A read out of bounds would panic. -/
def pick_step (tds : TriDataStructure) (reflex_node_idx : Nat)
    (acc : VertexNode × Nat) (h : Nat) : Option (VertexNode × Nat) :=
  match tds.hedge_starting_nodes[h]? with
  | none => none
  | some s =>
  match tds.hedge_starting_nodes[nextIdx h]? with
  | none => none
  | some e =>
  if s ≠ .casual reflex_node_idx ∧ e ≠ .casual reflex_node_idx then
    match tds.hedge_twins[h]? with
    | none => none
    | some tw => some (s, tw)
  else some acc

/-- Selection loop of the 3->1 flip, repeated verbatim in the source for each
of the three triangles: scan the three hedges of the triangle, keeping the
last hedge not incident to the reflex node; the accumulator starts at
(Deleted, INACTIVE). -/
def pick_non_reflex (tds : TriDataStructure) (tri_idx reflex_node_idx : Nat) :
    Option (VertexNode × Nat) :=
  match tds.pick_step reflex_node_idx (.deleted, INACTIVE) (tri_idx * 3) with
  | none => none
  | some a0 =>
  match tds.pick_step reflex_node_idx a0 (tri_idx * 3 + 1) with
  | none => none
  | some a1 =>
  tds.pick_step reflex_node_idx a1 (tri_idx * 3 + 2)

/-- TriDataStructure::flip_3_to_1 (src/rita/src/trids/tri_data_structure.rs,
lines 235-333): collapse three triangles sharing a reflex node into one.
The new triangle overwrites the first slot (after an orientation check via
orient_2d, swapping the second and third edge when the sign is -1); the
other two triangles are tombstoned.  Returns none where the Rust code would
panic (get_tri unwraps, node idx unwraps, Vec indexing, usize underflow). -/
def flip_3_to_1 {α : Type} [LinearOrderedCommRing α] (tds : TriDataStructure)
    (idxs_to_flip : Nat × Nat × Nat)
    (reflex_node_idx : Nat) (vertices : List (Vertex2 α)) :
    Option (TriDataStructure × Nat) :=
  if idxs_to_flip.1 ≥ tds.num_tris + tds.num_deleted_tris then none
  else
  let tri0_idx := idxs_to_flip.1
  let h_idx0 := tri0_idx * 3
  let h_idx1 := tri0_idx * 3 + 1
  let h_idx2 := tri0_idx * 3 + 2
  match tds.pick_non_reflex tri0_idx reflex_node_idx with
  | none => none
  | some (starting_node0, twin_idx0) =>
  if idxs_to_flip.2.1 ≥ tds.num_tris + tds.num_deleted_tris then none
  else
  match tds.pick_non_reflex idxs_to_flip.2.1 reflex_node_idx with
  | none => none
  | some (starting_node1, twin_idx1) =>
  if idxs_to_flip.2.2 ≥ tds.num_tris + tds.num_deleted_tris then none
  else
  match tds.pick_non_reflex idxs_to_flip.2.2 reflex_node_idx with
  | none => none
  | some (starting_node2, twin_idx2) =>
  match starting_node0.idx with
  | none => none
  | some i0 =>
  match starting_node1.idx with
  | none => none
  | some i1 =>
  match starting_node2.idx with
  | none => none
  | some i2 =>
  match vertices[i0]? with
  | none => none
  | some v0 =>
  match vertices[i1]? with
  | none => none
  | some v1 =>
  match vertices[i2]? with
  | none => none
  | some v2 =>
  let orient := orient_2d v0 v1 v2
  let sw :=
    if orient = -1 then (starting_node2, starting_node1, twin_idx2, twin_idx1)
    else (starting_node1, starting_node2, twin_idx1, twin_idx2)
  match tds.set_node h_idx0 starting_node0 with
  | none => none
  | some t1 =>
  match t1.set_twin h_idx0 twin_idx0 with
  | none => none
  | some t2 =>
  match t2.set_twin twin_idx0 h_idx0 with
  | none => none
  | some t3 =>
  match t3.set_node h_idx1 sw.1 with
  | none => none
  | some t4 =>
  match t4.set_twin h_idx1 sw.2.2.1 with
  | none => none
  | some t5 =>
  match t5.set_twin sw.2.2.1 h_idx1 with
  | none => none
  | some t6 =>
  match t6.set_node h_idx2 sw.2.1 with
  | none => none
  | some t7 =>
  match t7.set_twin h_idx2 sw.2.2.2 with
  | none => none
  | some t8 =>
  match t8.set_twin sw.2.2.2 h_idx2 with
  | none => none
  | some t9 =>
  match t9.set_tri_inactive idxs_to_flip.2.1 with
  | none => none
  | some t10 =>
  match t10.set_tri_inactive idxs_to_flip.2.2 with
  | none => none
  | some t11 =>
  if t11.num_tris < 2 then none
  else
  some (⟨t11.hedge_starting_nodes, t11.hedge_twins, t11.num_tris - 2,
    t11.num_deleted_tris + 2⟩, tri0_idx)

/-- Orientation of a stored triangle, the quantity the spec constrains for
the 3->1 flip: orient_2d evaluated on the starting vertices of the three
half-edges of triangle t, in stored order; none when a corner is not a
casual in-range vertex. -/
def tri_orientation {α : Type} [LinearOrderedCommRing α]
    (tds : TriDataStructure) (vertices : List (Vertex2 α))
    (t : Nat) : Option Int :=
  match (tds.nodeAt (t * 3)).idx, (tds.nodeAt (t * 3 + 1)).idx,
      (tds.nodeAt (t * 3 + 2)).idx with
  | some a, some b, some c =>
    match vertices[a]?, vertices[b]?, vertices[c]? with
    | some va, some vb, some vc => some (orient_2d va vb vc)
    | _, _, _ => none
  | _, _, _ => none

end TriDataStructure

/-- The 2D triangulation (src/rita/src/triangulation.rs, struct
Triangulation).  Coordinates, weights and epsilon are modelled as rationals;
the cfg-gated timing counters are compiled out. -/
structure Triangulation (α : Type) where
  epsilon : Option α
  tds : TriDataStructure
  vertices : List (Vertex2 α)
  weights : Option (List α)
  last_inserted_triangle : Option Nat
  used_vertices : List Nat
  redundant_vertices : List Nat
  ignored_vertices : List Nat
deriving DecidableEq, Repr

namespace Triangulation

/-- Triangulation::new. -/
def new {α : Type} (epsilon : Option α) : Triangulation α :=
  ⟨epsilon, .new, [], none, none, [], [], []⟩

/-- The PartialEq impl for Triangulation (src/rita/src/triangulation.rs,
lines 1229-1233): `self.vertices == other.vertices`. -/
def eqImpl {α : Type} [DecidableEq α] (a b : Triangulation α) : Bool :=
  a.vertices == b.vertices

end Triangulation

/-- The Flip enum of the 2D engine (src/rita/src/triangulation.rs, lines
34-40); ThreeToOne carries (third triangle index, reflex vertex index). -/
inductive Flip where
  | oneToThree
  | twoToTwo
  | threeToOne (third_tri_idx reflex_vertex_idx : Nat)
deriving DecidableEq, Repr

/-- Possible outcomes of is_flippable, separating its three panic sites from
the ordinary Option result: the more-than-one-reflex assertion, the trailing
no-reflex-found panic, and panics from unwraps / Vec indexing. -/
inductive IsFlippableResult where
  | ok (f : Option Flip)
  | panicTooManyReflex
  | panicNoReflex
  | panicOther
deriving DecidableEq, Repr

/-- The sorted triple computed by sort_unstable on a 3-element array. -/
def sort3 (x y z : Nat) : Nat × Nat × Nat :=
  let p1 := if x ≤ y then (x, y) else (y, x)
  let p2 := if p1.2 ≤ z then (p1.2, z) else (z, p1.2)
  let p3 := if p1.1 ≤ p2.1 then (p1.1, p2.1) else (p2.1, p1.1)
  (p3.1, p3.2, p2.2)

/-- Which neighbour hedge leads to the possible third triangle: across prev
when the reflex endpoint is the starting node of the shared hedge, across
next when it is the end node (source lines 1176-1182 and 1200-1206). -/
def third_tri_hop (tds : TriDataStructure) (p hedge_idx : Nat) : Nat :=
  if VertexNode.casual p = tds.starting_node hedge_idx then
    TriDataStructure.prevIdx hedge_idx
  else
    TriDataStructure.nextIdx hedge_idx

/-- One arm of the degree-3 check of is_flippable (source lines 1174-1221,
identical for the c-reflex and d-reflex cases): locate the possible third
triangle via two hedge hops from the shared edge, reject a conceptual one,
and accept iff its sorted node-index set equals the sorted candidate set
a, b, p (p the reflex endpoint). -/
def third_tri_check {α : Type} [LinearOrderedCommRing α]
    (self : Triangulation α) (a b p hedge_idx : Nat) : IsFlippableResult :=
  if hedge_idx ≥ self.tds.hedge_starting_nodes.length then .panicOther
  else
  match self.tds.hedge_twins[third_tri_hop self.tds p hedge_idx]? with
  | none => .panicOther
  | some tw =>
  let possible_third_tri := tw / 3
  match self.tds.tri_nodes possible_third_tri with
  | none => .panicOther
  | some (n0, n1, n2) =>
  if n0.is_conceptual || n1.is_conceptual || n2.is_conceptual then .ok none
  else
  match n0.idx with
  | none => .panicOther
  | some m0 =>
  match n1.idx with
  | none => .panicOther
  | some m1 =>
  match n2.idx with
  | none => .panicOther
  | some m2 =>
  if sort3 a b p = sort3 m0 m1 m2 then
    .ok (some (.threeToOne possible_third_tri p))
  else .ok none

/-- Triangulation::is_flippable (src/rita/src/triangulation.rs, lines
1122-1225): the weighted-case flippability test of the paper Incremental
Topological Flipping Works for Regular Triangulations.  Marks each endpoint
of the shared edge as reflex by two orientation side tests, early-outs to a
2->2 flip with no reflex point, asserts at most one reflex point, and
otherwise requires the reflex wedge to be filled by an existing third
triangle for a 3->1 flip. -/
def Triangulation.is_flippable {α : Type} [LinearOrderedCommRing α]
    (self : Triangulation α) (vertices_from_edge : Nat × Nat)
    (vertices_from_incident_tris : Nat × Nat) (hedge_idx : Nat) :
    IsFlippableResult :=
  let a := vertices_from_incident_tris.1
  let b := vertices_from_incident_tris.2
  let c := vertices_from_edge.1
  let d := vertices_from_edge.2
  match self.vertices[c]? with
  | none => .panicOther
  | some vc =>
  match self.vertices[a]? with
  | none => .panicOther
  | some va =>
  match self.vertices[d]? with
  | none => .panicOther
  | some vd =>
  match self.vertices[b]? with
  | none => .panicOther
  | some vb =>
  let side_d := orient_2d vc va vd
  let side_b := orient_2d vc va vb
  let side_c := orient_2d vd va vc
  let side_b2 := orient_2d vd va vb
  let num_reflex_points :=
    (if side_d ≠ side_b then 1 else 0) + (if side_c ≠ side_b2 then 1 else 0)
  if num_reflex_points = 0 then .ok (some .twoToTwo)
  else if num_reflex_points > 1 then .panicTooManyReflex
  else if side_d ≠ side_b then third_tri_check self a b c hedge_idx
  else if side_c ≠ side_b2 then third_tri_check self a b d hedge_idx
  else .panicNoReflex

/-- The result of seeding an empty TriDataStructure with the initial triangle
(0,1,2): four triangles, twelve hedges. -/
def seedTDS012 : TriDataStructure :=
  match TriDataStructure.new.add_init_tri (0, 1, 2) with
  | .ok s => s
  | .error _ => TriDataStructure.new

/-- Concrete run of flip_2_to_2 on the seeded structure, used as the C8
witness instance. -/
def c8res : TriDataStructure × (Nat × Nat) :=
  (seedTDS012.flip_2_to_2 0).getD (TriDataStructure.new, (0, 0))

/-- Concrete reflex-wedge configuration for the C5 witness: triangles
(0,1,3), (1,2,3), (2,0,3) around the reflex node 3, their outer edges
twinned to a fourth dummy triangle. -/
def c5tds : TriDataStructure :=
  ⟨[.casual 0, .casual 1, .casual 3, .casual 1, .casual 2, .casual 3,
    .casual 2, .casual 0, .casual 3, .casual 0, .casual 1, .casual 2],
   [9, 0, 0, 10, 0, 0, 11, 0, 0, 0, 0, 0], 4, 0⟩

/-- Vertices for the C5 witness: 3 lies strictly inside triangle 0,1,2.
Integer coordinates keep the witness kernel-computable. -/
def c5verts : List (Vertex2 ℤ) := [(0, 0), (4, 0), (0, 4), (1, 1)]

/-- Concrete run of flip_3_to_1 for the C5 witness. -/
def c5res : TriDataStructure × Nat :=
  (c5tds.flip_3_to_1 (0, 1, 2) 3 c5verts).getD (TriDataStructure.new, 0)

/-- Extended triangle of the 2D engine (src/rita/src/triangulation.rs,
TriangleExtended): a real coordinate triangle, or a hull segment when one
corner is the Conceptual node. -/
inductive TriangleExtended (α : Type) where
  | triangle (t : Vertex2 α × Vertex2 α × Vertex2 α)
  | conceptualTriangle (e : Vertex2 α × Vertex2 α)

namespace Triangulation

/-- Vertex read self.vertices[i]; in-range on every engine state. -/
def vertexAt {α : Type} [LinearOrderedCommRing α] (self : Triangulation α)
    (i : Nat) : Vertex2 α :=
  self.vertices.getD i (0, 0)

/-- Triangulation::height (src/rita/src/triangulation.rs, lines 257-260):
the lifted height x^2 + y^2 - w, with weight 0 when unweighted. -/
def height {α : Type} [LinearOrderedCommRing α] (self : Triangulation α)
    (v_idx : Nat) : α :=
  (self.vertexAt v_idx).1 * (self.vertexAt v_idx).1
    + (self.vertexAt v_idx).2 * (self.vertexAt v_idx).2
    - (match self.weights with
       | some weights => weights.getD v_idx 0
       | none => 0)

/-- Triangulation::get_tri_type (src/rita/src/triangulation.rs, lines
225-254): classify a triangle slot by its node labels, reading the corner
coordinates; unexpected label combinations are an error. -/
def get_tri_type {α : Type} [LinearOrderedCommRing α] (self : Triangulation α)
    (tri_idx : Nat) : Except String (TriangleExtended α) :=
  match self.tds.get_tri tri_idx with
  | .error e => .error e
  | .ok _ =>
  match self.tds.nodeAt (tri_idx * 3), self.tds.nodeAt (tri_idx * 3 + 1),
      self.tds.nodeAt (tri_idx * 3 + 2) with
  | .conceptual, .casual i1, .casual i2 =>
    .ok (.conceptualTriangle (self.vertexAt i1, self.vertexAt i2))
  | .casual i0, .conceptual, .casual i2 =>
    .ok (.conceptualTriangle (self.vertexAt i2, self.vertexAt i0))
  | .casual i0, .casual i1, .conceptual =>
    .ok (.conceptualTriangle (self.vertexAt i0, self.vertexAt i1))
  | .casual i0, .casual i1, .casual i2 =>
    .ok (.triangle (self.vertexAt i0, self.vertexAt i1, self.vertexAt i2))
  | _, _, _ => .error "An unexpected triangle case occurred"

/-- Triangulation::is_tri_flat (src/rita/src/triangulation.rs, lines
518-529): a casual triangle is flat iff orient_2d of its corners is 0; a
conceptual triangle is never flat. -/
def is_tri_flat {α : Type} [LinearOrderedCommRing α] (self : Triangulation α)
    (tri_idx : Nat) : Except String Bool :=
  match self.get_tri_type tri_idx with
  | .error e => .error e
  | .ok (.triangle (a, b, c)) => .ok (decide (orient_2d a b c = 0))
  | .ok (.conceptualTriangle _) => .ok false

/-- Triangulation::is_v_in_powercircle (src/rita/src/triangulation.rs, lines
532-555): the lifted in-power-circle test against a casual triangle, an
orientation test against the infinite-radius circle of a hull segment.  The
none case models the panic of n.idx().unwrap() on a malformed slot. -/
def is_v_in_powercircle {α : Type} [LinearOrderedCommRing α]
    (self : Triangulation α) (v_idx tri_idx : Nat) :
    Option (Except String Bool) :=
  match self.get_tri_type tri_idx with
  | .error e => some (.error e)
  | .ok (.triangle (a, b, c)) =>
    match (self.tds.nodeAt (tri_idx * 3)).idx,
        (self.tds.nodeAt (tri_idx * 3 + 1)).idx,
        (self.tds.nodeAt (tri_idx * 3 + 2)).idx with
    | some ia, some ib, some ic =>
      some (.ok (decide (0 < orient_2dlifted_SOS a b c (self.vertexAt v_idx)
        (self.height ia) (self.height ib) (self.height ic)
        (self.height v_idx))))
    | _, _, _ => none
  | .ok (.conceptualTriangle (e1, e2)) =>
    some (.ok (decide (0 < orient_2d e1 e2 (self.vertexAt v_idx))))

/-- nodes().contains(&VertexNode::Casual(v_idx)) for a triangle slot. -/
def tri_contains_casual (tds : TriDataStructure) (t v : Nat) : Bool :=
  (tds.nodeAt (t * 3) == .casual v) || (tds.nodeAt (t * 3 + 1) == .casual v)
    || (tds.nodeAt (t * 3 + 2) == .casual v)

/-- nodes().contains(&VertexNode::Deleted) for a triangle slot. -/
def tri_contains_deleted (tds : TriDataStructure) (t : Nat) : Bool :=
  (tds.nodeAt (t * 3) == .deleted) || (tds.nodeAt (t * 3 + 1) == .deleted)
    || (tds.nodeAt (t * 3 + 2) == .deleted)

/-- The vertex scan shared by the two regularity verifications: walk the
index list, skip vertices that are corners of the triangle, and stop at the
first vertex strictly inside the power circle.  This is both the inner
for-loop of is_regular (which breaks on the first violation) and the
iter().find() of par_is_regular (same first-true semantics). -/
def check_vertex_list {α : Type} [LinearOrderedCommRing α]
    (self : Triangulation α) (tri_idx : Nat) :
    List Nat → Option (Except String Bool)
  | [] => some (.ok false)
  | v :: rest =>
    if tri_contains_casual self.tds tri_idx v then
      check_vertex_list self tri_idx rest
    else
      match self.is_v_in_powercircle v tri_idx with
      | none => none
      | some (.error e) => some (.error e)
      | some (.ok true) => some (.ok true)
      | some (.ok false) => check_vertex_list self tri_idx rest

/-- The ignored-vertex scan of par_is_regular (source lines 727-734), which
does not skip corners. -/
def check_vertex_list_all {α : Type} [LinearOrderedCommRing α]
    (self : Triangulation α) (tri_idx : Nat) :
    List Nat → Option (Except String Bool)
  | [] => some (.ok false)
  | v :: rest =>
    match self.is_v_in_powercircle v tri_idx with
    | none => none
    | some (.error e) => some (.error e)
    | some (.ok true) => some (.ok true)
    | some (.ok false) => check_vertex_list_all self tri_idx rest

/-- One iteration of the is_regular for-loop (src/rita/src/triangulation.rs,
lines 595-653) on accumulator (regular, num_violated_triangles): skip slots
holding Deleted; a flat triangle clears the flag and counts; then the
redundant list and the used list are scanned in that order, each violation
clearing the flag and counting once (the source breaks out of the inner
loop after counting). -/
def is_regular_step {α : Type} [LinearOrderedCommRing α]
    (self : Triangulation α) (tri_idx : Nat) (acc : Bool × Nat) :
    Option (Except String (Bool × Nat)) :=
  if tri_contains_deleted self.tds tri_idx then some (.ok acc)
  else
  match self.is_tri_flat tri_idx with
  | .error e => some (.error e)
  | .ok flat =>
  let acc1 := if flat then (false, acc.2 + 1) else acc
  match self.check_vertex_list tri_idx self.redundant_vertices with
  | none => none
  | some (.error e) => some (.error e)
  | some (.ok rv) =>
  let acc2 := if rv then (false, acc1.2 + 1) else acc1
  match self.check_vertex_list tri_idx self.used_vertices with
  | none => none
  | some (.error e) => some (.error e)
  | some (.ok uv) =>
  some (.ok (if uv then (false, acc2.2 + 1) else acc2))

/-- The is_regular for-loop over a list of triangle slots. -/
def is_regular_loop {α : Type} [LinearOrderedCommRing α]
    (self : Triangulation α) : List Nat → Bool × Nat →
    Option (Except String (Bool × Nat))
  | [], acc => some (.ok acc)
  | t :: rest, acc =>
    match is_regular_step self t acc with
    | none => none
    | some (.error e) => some (.error e)
    | some (.ok acc2) => is_regular_loop self rest acc2

/-- Triangulation::is_regular (src/rita/src/triangulation.rs, lines
591-660): fold the per-triangle check over all slots (live and tombstoned),
then return the flag and 1 - violated / num_tris. -/
def is_regular {α : Type} [LinearOrderedCommRing α] (self : Triangulation α) :
    Option (Except String (Bool × ℚ)) :=
  match is_regular_loop self
      (List.range (self.tds.num_tris + self.tds.num_deleted_tris)) (true, 0) with
  | none => none
  | some (.error e) => some (.error e)
  | some (.ok (regular, cnt)) =>
    some (.ok (regular, 1 - (cnt : ℚ) / (self.tds.num_tris : ℚ)))

/-- The per-triangle violation indicator of par_is_regular
(src/rita/src/triangulation.rs, lines 670-739): 0 for a slot holding
Deleted, 1 for a flat triangle, else 1 iff the used scan, the redundant
scan, or (when requested) the ignored scan finds a violating vertex.  The
unwraps of the parallel worker turn errors into panics (none). -/
def par_tri_violation {α : Type} [LinearOrderedCommRing α]
    (self : Triangulation α) (with_ignored_vertices : Bool) (tri_idx : Nat) :
    Option ℚ :=
  if tri_contains_deleted self.tds tri_idx then some 0
  else
  match self.is_tri_flat tri_idx with
  | .error _ => none
  | .ok true => some 1
  | .ok false =>
  match self.check_vertex_list tri_idx self.used_vertices with
  | some (.ok true) => some 1
  | some (.ok false) =>
    match self.check_vertex_list tri_idx self.redundant_vertices with
    | some (.ok true) => some 1
    | some (.ok false) =>
      if with_ignored_vertices then
        match self.check_vertex_list_all tri_idx self.ignored_vertices with
        | some (.ok true) => some 1
        | some (.ok false) => some 0
        | _ => none
      else some 0
    | _ => none
  | _ => none

/-- The parallel sum of par_is_regular; the rayon reduction is
deterministic addition of per-triangle indicators, so it is a fold. -/
def par_sum {α : Type} [LinearOrderedCommRing α] (self : Triangulation α)
    (with_ignored_vertices : Bool) : List Nat → Option ℚ
  | [] => some 0
  | t :: rest =>
    match par_tri_violation self with_ignored_vertices t with
    | none => none
    | some x =>
      match par_sum self with_ignored_vertices rest with
      | none => none
      | some s => some (x + s)

/-- Triangulation::par_is_regular (src/rita/src/triangulation.rs, lines
666-743). -/
def par_is_regular {α : Type} [LinearOrderedCommRing α]
    (self : Triangulation α) (with_ignored_vertices : Bool) : Option ℚ :=
  match par_sum self with_ignored_vertices
      (List.range (self.tds.num_tris + self.tds.num_deleted_tris)) with
  | none => none
  | some s => some (1 - s / (self.tds.num_tris : ℚ))

end Triangulation

/-- Concrete triangulation for the C4 witness: the seeded structure with its
three vertices used. -/
def c4tri : Triangulation ℤ :=
  ⟨none, seedTDS012, [(0, 0), (4, 0), (0, 4)], none, none, [0, 1, 2], [], []⟩

/-- The fraction component computed by is_regular on c4tri. -/
def c4f : ℚ :=
  match c4tri.is_regular with
  | some (.ok (_, f)) => f
  | _ => 0

/-- The fraction computed by par_is_regular false on c4tri. -/
def c4r : ℚ :=
  match c4tri.par_is_regular false with
  | some r => r
  | none => 0

/-- The boolean computed by is_regular on c4tri. -/
def c4b : Bool :=
  match c4tri.is_regular with
  | some (.ok (bb, _)) => bb
  | _ => false

/-- State of the 3D visibility-walk loop
(src/rita/src/tetrahedralization.rs, locate_vis_walk, lines 424-460):
the candidate half-triangles of the current tetrahedron, the current
tetrahedron index, the side-alternation counter and the visit counter.
β abstracts the HalfTriIterator type. -/
structure WalkState (β : Type) where
  tris : List β
  curr_tet_idx : Nat
  side : Nat
  num_visited : Nat

/-- The loop of locate_vis_walk, with the geometric step abstracted:
choose_tri is Tetrahedralization::choose_tri (a predicate-oracle consumer
returning the first candidate face the query point lies below), nav is the
navigation block tri.opposite() / opp_tri.hedges() / hedges[(side+k) % 3]
.neighbor().tri() of the 3D DCEL, returning the three new candidates and the
new current tetrahedron, and is_v_in_sphere is the final containment check.
The loop in the source is unbounded (loop \x7b ... \x7d); fuel makes the
embedding total, with none meaning the fuel was insufficient. -/
def locate_loop {β : Type} (choose_tri : List β → Option β)
    (nav : β → Nat → List β × Nat)
    (is_v_in_sphere : Nat → Except String Bool)
    (num_tets : Nat) : Nat → WalkState β → Option (Except String Nat)
  | 0, _ => none
  | fuel + 1, s =>
    if s.num_visited > num_tets >>> 2 then
      some (.error "Could not find sphere containing point")
    else
      match choose_tri s.tris with
      | some tri =>
        locate_loop choose_tri nav is_v_in_sphere num_tets fuel
          ⟨(nav tri s.side).1, (nav tri s.side).2, (s.side + 1) % 3,
            s.num_visited + 1⟩
      | none =>
        match is_v_in_sphere s.curr_tet_idx with
        | .ok true => some (.ok s.curr_tet_idx)
        | .ok false => some (.error "Could not find sphere containing point")
        | .error e => some (.error e)

/-- Tetrahedralization::locate_vis_walk (src/rita/src/tetrahedralization.rs,
lines 424-460): fetch the half-triangles of the starting tetrahedron
(propagating the get_tet error), then walk with side = 0, num_visited = 0
and the visit budget tets_visitable = num_tets >> 2. -/
def locate_vis_walk {β : Type} (choose_tri : List β → Option β)
    (nav : β → Nat → List β × Nat)
    (is_v_in_sphere : Nat → Except String Bool)
    (get_tet_half_triangles : Nat → Except String (List β))
    (num_tets starting_tet_idx fuel : Nat) : Option (Except String Nat) :=
  match get_tet_half_triangles starting_tet_idx with
  | .error e => some (.error e)
  | .ok tris =>
    locate_loop choose_tri nav is_v_in_sphere num_tets fuel
      ⟨tris, starting_tet_idx, 0, 0⟩

/-- C10: Equality on Triangulation compares only the vertex coordinate list:
for every pair of Triangulation values a and b, a == b holds if and only if
a.vertices == b.vertices, regardless of any difference in weights, epsilon,
topology (tds), or the used/redundant/ignored index lists. -/
theorem C10_partial_eq_compares_only_vertices {α : Type} [DecidableEq α]
    (a b : Triangulation α) :
    Triangulation.eqImpl a b = true ↔ a.vertices = b.vertices := by
  simp [Triangulation.eqImpl]

/-- C3 (code bug): the out-of-bounds guard of flip_1_to_3 uses a strict
comparison, so the first out-of-range triangle index, namely
num_tris + num_deleted_tris itself, passes the guard and the subsequent Vec
access panics (modelled by the none result) instead of surfacing the Err
value the claim (and the guard of get_tri, which uses >=) prescribes.
Indices strictly beyond the boundary do surface the error. -/
theorem C3_flip_1_to_3_boundary_panics :
    TriDataStructure.new.add_init_tri (0, 1, 2) = .ok seedTDS012
      ∧ seedTDS012.num_tris + seedTDS012.num_deleted_tris = 4
      ∧ seedTDS012.flip_1_to_3 4 3 = none
      ∧ seedTDS012.flip_1_to_3 5 3
          = some (.error "Triangle index out of bounds!") := by
  refine ⟨rfl, by decide, rfl, rfl⟩

namespace TriDataStructure

/-- Success characterization of set_node. -/
theorem set_node_eq_some {tds tds' : TriDataStructure} {i : Nat} {v : VertexNode}
    (h : tds.set_node i v = some tds') :
    tds' = ⟨tds.hedge_starting_nodes.set i v, tds.hedge_twins, tds.num_tris,
      tds.num_deleted_tris⟩ ∧ i < tds.hedge_starting_nodes.length := by
  by_cases hc : i < tds.hedge_starting_nodes.length
  · rw [TriDataStructure.set_node, if_pos hc] at h
    exact ⟨(Option.some.inj h).symm, hc⟩
  · rw [TriDataStructure.set_node, if_neg hc] at h
    exact Option.noConfusion h

/-- Success characterization of set_twin. -/
theorem set_twin_eq_some {tds tds' : TriDataStructure} {i t : Nat}
    (h : tds.set_twin i t = some tds') :
    tds' = ⟨tds.hedge_starting_nodes, tds.hedge_twins.set i t, tds.num_tris,
      tds.num_deleted_tris⟩ ∧ i < tds.hedge_twins.length := by
  by_cases hc : i < tds.hedge_twins.length
  · rw [TriDataStructure.set_twin, if_pos hc] at h
    exact ⟨(Option.some.inj h).symm, hc⟩
  · rw [TriDataStructure.set_twin, if_neg hc] at h
    exact Option.noConfusion h

/-- Success characterization of replace_tri. -/
theorem replace_tri_eq_some {tds : TriDataStructure} {i : Nat}
    {v0 v1 v2 : VertexNode} {t : TriDataStructure} {a b c : Nat}
    (h : tds.replace_tri i v0 v1 v2 = some (t, a, b, c)) :
    t = ⟨((tds.hedge_starting_nodes.set (i * 3) v0).set (i * 3 + 1) v1).set
          (i * 3 + 2) v2,
        tds.hedge_twins, tds.num_tris, tds.num_deleted_tris⟩
      ∧ a = i * 3 ∧ b = i * 3 + 1 ∧ c = i * 3 + 2
      ∧ i * 3 + 2 < tds.hedge_starting_nodes.length := by
  simp only [TriDataStructure.replace_tri] at h
  split at h
  · exact Option.noConfusion h
  rename_i t1 heq1
  obtain ⟨ht1, hb1⟩ := set_node_eq_some heq1
  subst ht1
  split at h
  · exact Option.noConfusion h
  rename_i t2 heq2
  obtain ⟨ht2, hb2⟩ := set_node_eq_some heq2
  subst ht2
  split at h
  · exact Option.noConfusion h
  rename_i t3 heq3
  obtain ⟨ht3, hb3⟩ := set_node_eq_some heq3
  subst ht3
  simp only [Option.some.injEq, Prod.mk.injEq] at h
  obtain ⟨h1, h2, h3, h4⟩ := h
  refine ⟨h1.symm, h2.symm, h3.symm, h4.symm, ?_⟩
  simpa [List.length_set] using hb3

/-- Reading twinAt through a successful checked read. -/
theorem twinAt_eq_of_getElem {tds : TriDataStructure} {i x : Nat}
    (h : tds.hedge_twins[i]? = some x) : tds.twinAt i = x := by
  simp [TriDataStructure.twinAt, List.getD_eq_getElem?_getD, h]

end TriDataStructure

/-- C8: flip_2_to_2 mutates the two participating triangle slots in place:
num_tris, num_deleted_tris and both array lengths are unchanged, the result
triangles occupy the same two slot indices (idx/3 and twin(idx)/3), the
starting-node entries outside the two triangles are untouched, and the twin
entries outside the six participating hedges and the four external
neighbors (the twins of the four non-shared hedges, as selected by
flip22_sides) are untouched. -/
theorem C8_flip_2_to_2_frame (tds tds' : TriDataStructure) (idx t1 t2 : Nat)
    (h : tds.flip_2_to_2 idx = some (tds', (t1, t2))) :
    tds'.num_tris = tds.num_tris
    ∧ tds'.num_deleted_tris = tds.num_deleted_tris
    ∧ tds'.hedge_starting_nodes.length = tds.hedge_starting_nodes.length
    ∧ tds'.hedge_twins.length = tds.hedge_twins.length
    ∧ t1 = idx / 3 ∧ t2 = tds.twinAt idx / 3
    ∧ (∀ j, j / 3 ≠ idx / 3 → j / 3 ≠ tds.twinAt idx / 3 →
        tds'.nodeAt j = tds.nodeAt j)
    ∧ (∀ j, j / 3 ≠ idx / 3 → j / 3 ≠ tds.twinAt idx / 3 →
        j ≠ tds.twinAt (TriDataStructure.flip22_sides (idx / 3) idx).1 →
        j ≠ tds.twinAt (TriDataStructure.flip22_sides (idx / 3) idx).2 →
        j ≠ tds.twinAt
            (TriDataStructure.flip22_sides (tds.twinAt idx / 3) (tds.twinAt idx)).1 →
        j ≠ tds.twinAt
            (TriDataStructure.flip22_sides (tds.twinAt idx / 3) (tds.twinAt idx)).2 →
        tds'.twinAt j = tds.twinAt j) := by
  simp only [TriDataStructure.flip_2_to_2] at h
  split at h
  · exact Option.noConfusion h
  rename_i htw heq0
  have htwA : tds.twinAt idx = htw := TriDataStructure.twinAt_eq_of_getElem heq0
  clear heq0
  split at h
  · exact Option.noConfusion h
  rename_i na heqna
  clear heqna
  split at h
  · exact Option.noConfusion h
  rename_i nb heqnb
  clear heqnb
  split at h
  · exact Option.noConfusion h
  rename_i nc heqnc
  clear heqnc
  split at h
  · exact Option.noConfusion h
  rename_i nd heqnd
  clear heqnd
  split at h
  · exact Option.noConfusion h
  rename_i hba heqba
  have hbap : tds.twinAt (TriDataStructure.flip22_sides (idx / 3) idx).1 = hba :=
    TriDataStructure.twinAt_eq_of_getElem heqba
  clear heqba
  split at h
  · exact Option.noConfusion h
  rename_i hcb heqcb
  have hcbp : tds.twinAt (TriDataStructure.flip22_sides (idx / 3) idx).2 = hcb :=
    TriDataStructure.twinAt_eq_of_getElem heqcb
  clear heqcb
  split at h
  · exact Option.noConfusion h
  rename_i hdc heqdc
  have hdcp : tds.twinAt (TriDataStructure.flip22_sides (htw / 3) htw).1 = hdc :=
    TriDataStructure.twinAt_eq_of_getElem heqdc
  clear heqdc
  split at h
  · exact Option.noConfusion h
  rename_i had heqad
  have hadp : tds.twinAt (TriDataStructure.flip22_sides (htw / 3) htw).2 = had :=
    TriDataStructure.twinAt_eq_of_getElem heqad
  clear heqad
  split at h
  · exact Option.noConfusion h
  rename_i tdsA rbc rcd rdb heqr1
  obtain ⟨hA1, hrbc, hrcd, hrdb, -⟩ :=
    TriDataStructure.replace_tri_eq_some heqr1
  subst hA1 hrbc hrcd hrdb
  clear heqr1
  split at h
  · exact Option.noConfusion h
  rename_i tdsB rda rab rbd heqr2
  obtain ⟨hA2, hrda, hrab, hrbd, -⟩ :=
    TriDataStructure.replace_tri_eq_some heqr2
  subst hA2 hrda hrab hrbd
  clear heqr2
  split at h
  · exact Option.noConfusion h
  rename_i s1 heqs1
  obtain ⟨hs1, -⟩ := TriDataStructure.set_twin_eq_some heqs1
  subst hs1
  clear heqs1
  split at h
  · exact Option.noConfusion h
  rename_i s2 heqs2
  obtain ⟨hs2, -⟩ := TriDataStructure.set_twin_eq_some heqs2
  subst hs2
  clear heqs2
  split at h
  · exact Option.noConfusion h
  rename_i s3 heqs3
  obtain ⟨hs3, -⟩ := TriDataStructure.set_twin_eq_some heqs3
  subst hs3
  clear heqs3
  split at h
  · exact Option.noConfusion h
  rename_i s4 heqs4
  obtain ⟨hs4, -⟩ := TriDataStructure.set_twin_eq_some heqs4
  subst hs4
  clear heqs4
  split at h
  · exact Option.noConfusion h
  rename_i s5 heqs5
  obtain ⟨hs5, -⟩ := TriDataStructure.set_twin_eq_some heqs5
  subst hs5
  clear heqs5
  split at h
  · exact Option.noConfusion h
  rename_i s6 heqs6
  obtain ⟨hs6, -⟩ := TriDataStructure.set_twin_eq_some heqs6
  subst hs6
  clear heqs6
  split at h
  · exact Option.noConfusion h
  rename_i s7 heqs7
  obtain ⟨hs7, -⟩ := TriDataStructure.set_twin_eq_some heqs7
  subst hs7
  clear heqs7
  split at h
  · exact Option.noConfusion h
  rename_i s8 heqs8
  obtain ⟨hs8, -⟩ := TriDataStructure.set_twin_eq_some heqs8
  subst hs8
  clear heqs8
  split at h
  · exact Option.noConfusion h
  rename_i s9 heqs9
  obtain ⟨hs9, -⟩ := TriDataStructure.set_twin_eq_some heqs9
  subst hs9
  clear heqs9
  split at h
  · exact Option.noConfusion h
  rename_i s10 heqs10
  obtain ⟨hs10, -⟩ := TriDataStructure.set_twin_eq_some heqs10
  subst hs10
  clear heqs10
  simp only [Option.some.injEq, Prod.mk.injEq] at h
  obtain ⟨htdsE, ht1, ht2⟩ := h
  subst htdsE
  rw [htwA]
  refine ⟨rfl, rfl, by simp [List.length_set], by simp [List.length_set],
    ht1.symm, ht2.symm, ?_, ?_⟩
  · intro j hj1 hj2
    have e1 : idx / 3 * 3 ≠ j := by omega
    have e2 : idx / 3 * 3 + 1 ≠ j := by omega
    have e3 : idx / 3 * 3 + 2 ≠ j := by omega
    have e4 : htw / 3 * 3 ≠ j := by omega
    have e5 : htw / 3 * 3 + 1 ≠ j := by omega
    have e6 : htw / 3 * 3 + 2 ≠ j := by omega
    simp only [TriDataStructure.nodeAt, List.getD_eq_getElem?_getD,
      List.getElem?_set_ne e1, List.getElem?_set_ne e2, List.getElem?_set_ne e3,
      List.getElem?_set_ne e4, List.getElem?_set_ne e5, List.getElem?_set_ne e6]
  · intro j hj1 hj2 hjba hjcb hjdc hjad
    rw [hbap] at hjba
    rw [hcbp] at hjcb
    rw [hdcp] at hjdc
    rw [hadp] at hjad
    have e1 : idx / 3 * 3 ≠ j := by omega
    have e2 : idx / 3 * 3 + 1 ≠ j := by omega
    have e3 : idx / 3 * 3 + 2 ≠ j := by omega
    have e4 : htw / 3 * 3 ≠ j := by omega
    have e5 : htw / 3 * 3 + 1 ≠ j := by omega
    have e6 : htw / 3 * 3 + 2 ≠ j := by omega
    simp only [TriDataStructure.twinAt, List.getD_eq_getElem?_getD,
      List.getElem?_set_ne e1, List.getElem?_set_ne e2, List.getElem?_set_ne e3,
      List.getElem?_set_ne e4, List.getElem?_set_ne e5, List.getElem?_set_ne e6,
      List.getElem?_set_ne (Ne.symm hjba), List.getElem?_set_ne (Ne.symm hjcb),
      List.getElem?_set_ne (Ne.symm hjdc), List.getElem?_set_ne (Ne.symm hjad)]
/-- Witness for C8: run flip_2_to_2 on hedge 0 of the seeded structure; the
two participants are triangles 0 and 3, counts are preserved and hedge 3
(in triangle 1, not a participant and not one of the four external twins)
keeps its node and twin entries. -/
theorem C8_flip_2_to_2_frame_witness :
    c8res.1.num_tris = seedTDS012.num_tris
    ∧ c8res.2.1 = 0 ∧ c8res.2.2 = 3
    ∧ c8res.1.nodeAt 3 = seedTDS012.nodeAt 3
    ∧ c8res.1.twinAt 3 = seedTDS012.twinAt 3 := by
  have h : seedTDS012.flip_2_to_2 0 = some (c8res.1, (c8res.2.1, c8res.2.2)) := by
    decide
  have frame := C8_flip_2_to_2_frame seedTDS012 c8res.1 0 c8res.2.1 c8res.2.2 h
  refine ⟨frame.1, ?_, ?_, ?_, ?_⟩
  · exact frame.2.2.2.2.1
  · have h2 := frame.2.2.2.2.2.1
    rw [h2]; decide
  · exact frame.2.2.2.2.2.2.1 3 (by decide) (by decide)
  · exact frame.2.2.2.2.2.2.2 3 (by decide) (by decide) (by decide) (by decide)
      (by decide) (by decide)

/-- Negating the argument negates the sign. -/
theorem qsign_neg {α : Type} [LinearOrderedCommRing α] (q : α) :
    qsign (-q) = -qsign q := by
  unfold qsign
  rcases lt_trichotomy 0 q with h | h | h
  · rw [if_neg (by linarith), if_pos (by linarith), if_pos h]
  · rw [← h]
    norm_num
  · rw [if_pos (by linarith), if_neg (by linarith), if_pos h]
    norm_num

/-- Swapping the last two arguments of orient_2d negates the sign. -/
theorem orient_2d_swap23 {α : Type} [LinearOrderedCommRing α]
    (a b c : Vertex2 α) : orient_2d a c b = -orient_2d a b c := by
  have harg : (c.1 - a.1) * (b.2 - a.2) - (c.2 - a.2) * (b.1 - a.1)
      = -((b.1 - a.1) * (c.2 - a.2) - (b.2 - a.2) * (c.1 - a.1)) := by ring
  rw [orient_2d, orient_2d, harg, qsign_neg]

/-- orient_2d only takes the values 1, -1 and 0. -/
theorem orient_2d_cases {α : Type} [LinearOrderedCommRing α] (a b c : Vertex2 α) :
    orient_2d a b c = 1 ∨ orient_2d a b c = -1 ∨ orient_2d a b c = 0 := by
  unfold orient_2d qsign
  split
  · exact Or.inl rfl
  split
  · exact Or.inr (Or.inl rfl)
  · exact Or.inr (Or.inr rfl)

/-- Success characterization of set_tri_inactive. -/
theorem TriDataStructure.set_tri_inactive_eq_some {tds tds' : TriDataStructure}
    {t : Nat} (h : tds.set_tri_inactive t = some tds') :
    tds' = ⟨((tds.hedge_starting_nodes.set (t * 3) .deleted).set (t * 3 + 1)
          .deleted).set (t * 3 + 2) .deleted,
        ((tds.hedge_twins.set (t * 3) INACTIVE).set (t * 3 + 1) INACTIVE).set
          (t * 3 + 2) INACTIVE,
        tds.num_tris, tds.num_deleted_tris⟩
      ∧ t < tds.num_tris + tds.num_deleted_tris := by
  simp only [TriDataStructure.set_tri_inactive] at h
  split at h
  · exact Option.noConfusion h
  rename_i hguard
  split at h
  · exact Option.noConfusion h
  rename_i t1 heqt1
  obtain ⟨ht1, -⟩ := TriDataStructure.set_node_eq_some heqt1
  subst ht1
  clear heqt1
  split at h
  · exact Option.noConfusion h
  rename_i t2 heqt2
  obtain ⟨ht2, -⟩ := TriDataStructure.set_node_eq_some heqt2
  subst ht2
  clear heqt2
  split at h
  · exact Option.noConfusion h
  rename_i t3 heqt3
  obtain ⟨ht3, -⟩ := TriDataStructure.set_node_eq_some heqt3
  subst ht3
  clear heqt3
  split at h
  · exact Option.noConfusion h
  rename_i t4 heqt4
  obtain ⟨ht4, -⟩ := TriDataStructure.set_twin_eq_some heqt4
  subst ht4
  clear heqt4
  split at h
  · exact Option.noConfusion h
  rename_i t5 heqt5
  obtain ⟨ht5, -⟩ := TriDataStructure.set_twin_eq_some heqt5
  subst ht5
  clear heqt5
  obtain ⟨hfin, -⟩ := TriDataStructure.set_twin_eq_some h
  exact ⟨hfin, by omega⟩

set_option maxHeartbeats 1600000 in
/-- C5: for every call of flip_3_to_1 on three triangles sharing a reflex
node (formalized: the first triangle is a slot distinct from the other two,
and the three hedges selected by the not-incident-to-the-reflex-node scan
carry non-collinear vertices), the resulting triangle has positive
orientation: orient_2d on the starting vertices of its three half-edges, in
stored order, is +1 after the flip, thanks to the swap performed when the
predicate returns -1. -/
theorem C5_flip_3_to_1_positive_orientation {α : Type}
    [LinearOrderedCommRing α]
    (tds tds2 : TriDataStructure) (i0 i1 i2 reflex t0 : Nat)
    (verts : List (Vertex2 α))
    (hne1 : i0 ≠ i1) (hne2 : i0 ≠ i2)
    (hnz : ∀ p0 p1 p2 : VertexNode × Nat,
      tds.pick_non_reflex i0 reflex = some p0 →
      tds.pick_non_reflex i1 reflex = some p1 →
      tds.pick_non_reflex i2 reflex = some p2 →
      ∀ j0 j1 j2 : Nat, p0.1.idx = some j0 → p1.1.idx = some j1 →
        p2.1.idx = some j2 →
      ∀ u0 u1 u2 : Vertex2 α, verts[j0]? = some u0 → verts[j1]? = some u1 →
        verts[j2]? = some u2 → orient_2d u0 u1 u2 ≠ 0)
    (h : tds.flip_3_to_1 (i0, i1, i2) reflex verts = some (tds2, t0)) :
    t0 = i0 ∧ tds2.tri_orientation verts t0 = some 1 := by
  simp only [TriDataStructure.flip_3_to_1] at h
  split at h
  · exact Option.noConfusion h
  split at h
  · exact Option.noConfusion h
  rename_i s0 w0 heqp0
  split at h
  · exact Option.noConfusion h
  split at h
  · exact Option.noConfusion h
  rename_i s1 w1 heqp1
  split at h
  · exact Option.noConfusion h
  split at h
  · exact Option.noConfusion h
  rename_i s2 w2 heqp2
  split at h
  · exact Option.noConfusion h
  rename_i j0 heqj0
  split at h
  · exact Option.noConfusion h
  rename_i j1 heqj1
  split at h
  · exact Option.noConfusion h
  rename_i j2 heqj2
  split at h
  · exact Option.noConfusion h
  rename_i u0 hequ0
  split at h
  · exact Option.noConfusion h
  rename_i u1 hequ1
  split at h
  · exact Option.noConfusion h
  rename_i u2 hequ2
  have horNZ : orient_2d u0 u1 u2 ≠ 0 :=
    hnz (s0, w0) (s1, w1) (s2, w2) heqp0 heqp1 heqp2 j0 j1 j2 heqj0 heqj1
      heqj2 u0 u1 u2 hequ0 hequ1 hequ2
  clear hnz heqp0 heqp1 heqp2
  rcases orient_2d_cases u0 u1 u2 with hor | hor | hor
  · rw [hor] at h
    rw [if_neg (show ¬((1 : Int) = -1) by decide)] at h
    split at h
    · exact Option.noConfusion h
    rename_i t1 heqt1
    obtain ⟨ht1, hb1⟩ := TriDataStructure.set_node_eq_some heqt1
    subst ht1
    clear heqt1
    split at h
    · exact Option.noConfusion h
    rename_i t2 heqt2
    obtain ⟨ht2, -⟩ := TriDataStructure.set_twin_eq_some heqt2
    subst ht2
    clear heqt2
    split at h
    · exact Option.noConfusion h
    rename_i t3 heqt3
    obtain ⟨ht3, -⟩ := TriDataStructure.set_twin_eq_some heqt3
    subst ht3
    clear heqt3
    split at h
    · exact Option.noConfusion h
    rename_i t4 heqt4
    obtain ⟨ht4, hb4⟩ := TriDataStructure.set_node_eq_some heqt4
    subst ht4
    clear heqt4
    split at h
    · exact Option.noConfusion h
    rename_i t5 heqt5
    obtain ⟨ht5, -⟩ := TriDataStructure.set_twin_eq_some heqt5
    subst ht5
    clear heqt5
    split at h
    · exact Option.noConfusion h
    rename_i t6 heqt6
    obtain ⟨ht6, -⟩ := TriDataStructure.set_twin_eq_some heqt6
    subst ht6
    clear heqt6
    split at h
    · exact Option.noConfusion h
    rename_i t7 heqt7
    obtain ⟨ht7, hb7⟩ := TriDataStructure.set_node_eq_some heqt7
    subst ht7
    clear heqt7
    split at h
    · exact Option.noConfusion h
    rename_i t8 heqt8
    obtain ⟨ht8, -⟩ := TriDataStructure.set_twin_eq_some heqt8
    subst ht8
    clear heqt8
    split at h
    · exact Option.noConfusion h
    rename_i t9 heqt9
    obtain ⟨ht9, -⟩ := TriDataStructure.set_twin_eq_some heqt9
    subst ht9
    clear heqt9
    split at h
    · exact Option.noConfusion h
    rename_i t10 heqt10
    obtain ⟨ht10, -⟩ := TriDataStructure.set_tri_inactive_eq_some heqt10
    subst ht10
    clear heqt10
    split at h
    · exact Option.noConfusion h
    rename_i t11 heqt11
    obtain ⟨ht11, -⟩ := TriDataStructure.set_tri_inactive_eq_some heqt11
    subst ht11
    clear heqt11
    split at h
    · exact Option.noConfusion h
    rename_i hgT
    clear hgT
    simp only [Option.some.injEq, Prod.mk.injEq] at h
    obtain ⟨hE, ht0⟩ := h
    subst hE
    subst ht0
    refine ⟨rfl, ?_⟩
    have d1 : i1 * 3 ≠ i0 * 3 := by omega
    have d2 : i1 * 3 + 1 ≠ i0 * 3 := by omega
    have d3 : i1 * 3 + 2 ≠ i0 * 3 := by omega
    have d4 : i2 * 3 ≠ i0 * 3 := by omega
    have d5 : i2 * 3 + 1 ≠ i0 * 3 := by omega
    have d6 : i2 * 3 + 2 ≠ i0 * 3 := by omega
    have d7 : i1 * 3 ≠ i0 * 3 + 1 := by omega
    have d8 : i1 * 3 + 1 ≠ i0 * 3 + 1 := by omega
    have d9 : i1 * 3 + 2 ≠ i0 * 3 + 1 := by omega
    have d10 : i2 * 3 ≠ i0 * 3 + 1 := by omega
    have d11 : i2 * 3 + 1 ≠ i0 * 3 + 1 := by omega
    have d12 : i2 * 3 + 2 ≠ i0 * 3 + 1 := by omega
    have d13 : i1 * 3 ≠ i0 * 3 + 2 := by omega
    have d14 : i1 * 3 + 1 ≠ i0 * 3 + 2 := by omega
    have d15 : i1 * 3 + 2 ≠ i0 * 3 + 2 := by omega
    have d16 : i2 * 3 ≠ i0 * 3 + 2 := by omega
    have d17 : i2 * 3 + 1 ≠ i0 * 3 + 2 := by omega
    have d18 : i2 * 3 + 2 ≠ i0 * 3 + 2 := by omega
    have d19 : i0 * 3 + 1 ≠ i0 * 3 := by omega
    have d20 : i0 * 3 + 2 ≠ i0 * 3 := by omega
    have d21 : i0 * 3 + 2 ≠ i0 * 3 + 1 := by omega
    simp only [TriDataStructure.tri_orientation, TriDataStructure.nodeAt,
      List.getD_eq_getElem?_getD,
      List.getElem?_set_ne d1, List.getElem?_set_ne d2, List.getElem?_set_ne d3,
      List.getElem?_set_ne d4, List.getElem?_set_ne d5, List.getElem?_set_ne d6,
      List.getElem?_set_ne d7, List.getElem?_set_ne d8, List.getElem?_set_ne d9,
      List.getElem?_set_ne d10, List.getElem?_set_ne d11, List.getElem?_set_ne d12,
      List.getElem?_set_ne d13, List.getElem?_set_ne d14, List.getElem?_set_ne d15,
      List.getElem?_set_ne d16, List.getElem?_set_ne d17, List.getElem?_set_ne d18,
      List.getElem?_set_ne d19, List.getElem?_set_ne d20, List.getElem?_set_ne d21,
      List.getElem?_set_self hb1, List.getElem?_set_self hb4,
      List.getElem?_set_self hb7, Option.getD_some]
    rw [heqj0, heqj1, heqj2]
    simp only [hequ0, hequ1, hequ2]
    rw [hor]
  · rw [hor] at h
    rw [if_pos (rfl : (-1 : Int) = -1)] at h
    split at h
    · exact Option.noConfusion h
    rename_i t1 heqt1
    obtain ⟨ht1, hb1⟩ := TriDataStructure.set_node_eq_some heqt1
    subst ht1
    clear heqt1
    split at h
    · exact Option.noConfusion h
    rename_i t2 heqt2
    obtain ⟨ht2, -⟩ := TriDataStructure.set_twin_eq_some heqt2
    subst ht2
    clear heqt2
    split at h
    · exact Option.noConfusion h
    rename_i t3 heqt3
    obtain ⟨ht3, -⟩ := TriDataStructure.set_twin_eq_some heqt3
    subst ht3
    clear heqt3
    split at h
    · exact Option.noConfusion h
    rename_i t4 heqt4
    obtain ⟨ht4, hb4⟩ := TriDataStructure.set_node_eq_some heqt4
    subst ht4
    clear heqt4
    split at h
    · exact Option.noConfusion h
    rename_i t5 heqt5
    obtain ⟨ht5, -⟩ := TriDataStructure.set_twin_eq_some heqt5
    subst ht5
    clear heqt5
    split at h
    · exact Option.noConfusion h
    rename_i t6 heqt6
    obtain ⟨ht6, -⟩ := TriDataStructure.set_twin_eq_some heqt6
    subst ht6
    clear heqt6
    split at h
    · exact Option.noConfusion h
    rename_i t7 heqt7
    obtain ⟨ht7, hb7⟩ := TriDataStructure.set_node_eq_some heqt7
    subst ht7
    clear heqt7
    split at h
    · exact Option.noConfusion h
    rename_i t8 heqt8
    obtain ⟨ht8, -⟩ := TriDataStructure.set_twin_eq_some heqt8
    subst ht8
    clear heqt8
    split at h
    · exact Option.noConfusion h
    rename_i t9 heqt9
    obtain ⟨ht9, -⟩ := TriDataStructure.set_twin_eq_some heqt9
    subst ht9
    clear heqt9
    split at h
    · exact Option.noConfusion h
    rename_i t10 heqt10
    obtain ⟨ht10, -⟩ := TriDataStructure.set_tri_inactive_eq_some heqt10
    subst ht10
    clear heqt10
    split at h
    · exact Option.noConfusion h
    rename_i t11 heqt11
    obtain ⟨ht11, -⟩ := TriDataStructure.set_tri_inactive_eq_some heqt11
    subst ht11
    clear heqt11
    split at h
    · exact Option.noConfusion h
    rename_i hgT
    clear hgT
    simp only [Option.some.injEq, Prod.mk.injEq] at h
    obtain ⟨hE, ht0⟩ := h
    subst hE
    subst ht0
    refine ⟨rfl, ?_⟩
    have d1 : i1 * 3 ≠ i0 * 3 := by omega
    have d2 : i1 * 3 + 1 ≠ i0 * 3 := by omega
    have d3 : i1 * 3 + 2 ≠ i0 * 3 := by omega
    have d4 : i2 * 3 ≠ i0 * 3 := by omega
    have d5 : i2 * 3 + 1 ≠ i0 * 3 := by omega
    have d6 : i2 * 3 + 2 ≠ i0 * 3 := by omega
    have d7 : i1 * 3 ≠ i0 * 3 + 1 := by omega
    have d8 : i1 * 3 + 1 ≠ i0 * 3 + 1 := by omega
    have d9 : i1 * 3 + 2 ≠ i0 * 3 + 1 := by omega
    have d10 : i2 * 3 ≠ i0 * 3 + 1 := by omega
    have d11 : i2 * 3 + 1 ≠ i0 * 3 + 1 := by omega
    have d12 : i2 * 3 + 2 ≠ i0 * 3 + 1 := by omega
    have d13 : i1 * 3 ≠ i0 * 3 + 2 := by omega
    have d14 : i1 * 3 + 1 ≠ i0 * 3 + 2 := by omega
    have d15 : i1 * 3 + 2 ≠ i0 * 3 + 2 := by omega
    have d16 : i2 * 3 ≠ i0 * 3 + 2 := by omega
    have d17 : i2 * 3 + 1 ≠ i0 * 3 + 2 := by omega
    have d18 : i2 * 3 + 2 ≠ i0 * 3 + 2 := by omega
    have d19 : i0 * 3 + 1 ≠ i0 * 3 := by omega
    have d20 : i0 * 3 + 2 ≠ i0 * 3 := by omega
    have d21 : i0 * 3 + 2 ≠ i0 * 3 + 1 := by omega
    simp only [TriDataStructure.tri_orientation, TriDataStructure.nodeAt,
      List.getD_eq_getElem?_getD,
      List.getElem?_set_ne d1, List.getElem?_set_ne d2, List.getElem?_set_ne d3,
      List.getElem?_set_ne d4, List.getElem?_set_ne d5, List.getElem?_set_ne d6,
      List.getElem?_set_ne d7, List.getElem?_set_ne d8, List.getElem?_set_ne d9,
      List.getElem?_set_ne d10, List.getElem?_set_ne d11, List.getElem?_set_ne d12,
      List.getElem?_set_ne d13, List.getElem?_set_ne d14, List.getElem?_set_ne d15,
      List.getElem?_set_ne d16, List.getElem?_set_ne d17, List.getElem?_set_ne d18,
      List.getElem?_set_ne d19, List.getElem?_set_ne d20, List.getElem?_set_ne d21,
      List.getElem?_set_self hb1, List.getElem?_set_self hb4,
      List.getElem?_set_self hb7, Option.getD_some]
    rw [heqj0, heqj2, heqj1]
    simp only [hequ0, hequ1, hequ2]
    rw [orient_2d_swap23, hor]
    norm_num
  · exact absurd hor horNZ

/-- Witness for C5: the concrete reflex wedge c5tds around vertex 3 is
collapsed by flip_3_to_1 into triangle (0,1,2), stored in slot 0 with
positive orientation. -/
theorem C5_flip_3_to_1_positive_orientation_witness :
    c5res.2 = 0 ∧ c5res.1.tri_orientation c5verts c5res.2 = some 1 := by
  have h : c5tds.flip_3_to_1 (0, 1, 2) 3 c5verts = some (c5res.1, c5res.2) := by
    decide
  refine C5_flip_3_to_1_positive_orientation c5tds c5res.1 0 1 2 3 c5res.2 c5verts
    (by decide) (by decide) ?_ h
  intro p0 p1 p2 h0 h1 h2 j0 j1 j2 hj0 hj1 hj2 u0 u1 u2 hu0 hu1 hu2
  have hp0 : c5tds.pick_non_reflex 0 3 = some (VertexNode.casual 0, 9) := by decide
  have hp1 : c5tds.pick_non_reflex 1 3 = some (VertexNode.casual 1, 10) := by decide
  have hp2 : c5tds.pick_non_reflex 2 3 = some (VertexNode.casual 2, 11) := by decide
  rw [hp0] at h0
  rw [hp1] at h1
  rw [hp2] at h2
  obtain rfl := Option.some.inj h0
  obtain rfl := Option.some.inj h1
  obtain rfl := Option.some.inj h2
  simp only [VertexNode.idx, Option.some.injEq] at hj0 hj1 hj2
  subst hj0
  subst hj1
  subst hj2
  have hv0 : c5verts[(0 : Nat)]? = some ((0 : ℤ), (0 : ℤ)) := by decide
  have hv1 : c5verts[(1 : Nat)]? = some ((4 : ℤ), (0 : ℤ)) := by decide
  have hv2 : c5verts[(2 : Nat)]? = some ((0 : ℤ), (4 : ℤ)) := by decide
  rw [hv0] at hu0
  rw [hv1] at hu1
  rw [hv2] at hu2
  obtain rfl := Option.some.inj hu0
  obtain rfl := Option.some.inj hu1
  obtain rfl := Option.some.inj hu2
  decide

/-- The degree-3 arm of is_flippable never reaches the trailing no-reflex
panic: all its outcomes are ok results or other panics. -/
theorem third_tri_check_ne_panicNoReflex {α : Type} [LinearOrderedCommRing α]
    (self : Triangulation α) (a b p hedge_idx : Nat) :
    third_tri_check self a b p hedge_idx ≠ .panicNoReflex := by
  intro heq
  simp only [third_tri_check] at heq
  split at heq
  · exact IsFlippableResult.noConfusion heq
  split at heq
  · exact IsFlippableResult.noConfusion heq
  rename_i tw heqtw
  split at heq
  · exact IsFlippableResult.noConfusion heq
  rename_i n0 n1 n2 heqn
  split at heq
  · exact IsFlippableResult.noConfusion heq
  split at heq
  · exact IsFlippableResult.noConfusion heq
  rename_i m0 heqm0
  split at heq
  · exact IsFlippableResult.noConfusion heq
  rename_i m1 heqm1
  split at heq
  · exact IsFlippableResult.noConfusion heq
  rename_i m2 heqm2
  split at heq
  · exact IsFlippableResult.noConfusion heq
  exact IsFlippableResult.noConfusion heq

/-- C9: the trailing panic branch of is_flippable ("No reflex point found,
but we should have found one!") is unreachable: whenever control passes the
early-outs with exactly one reflex point counted, one of the two reflex
flags is set, since the counter is incremented exactly when a flag is set;
the function can only panic via the more-than-one-reflex assertion or via
an out-of-bounds access. -/
theorem C9_is_flippable_no_reflex_panic_unreachable {α : Type}
    [LinearOrderedCommRing α] (self : Triangulation α)
    (vertices_from_edge vertices_from_incident_tris : Nat × Nat)
    (hedge_idx : Nat) :
    (Triangulation.is_flippable self vertices_from_edge
        vertices_from_incident_tris hedge_idx
      == IsFlippableResult.panicNoReflex) = false := by
  rw [beq_eq_false_iff_ne]
  intro heq
  simp only [Triangulation.is_flippable] at heq
  split at heq
  · exact IsFlippableResult.noConfusion heq
  rename_i vc heqvc
  split at heq
  · exact IsFlippableResult.noConfusion heq
  rename_i va heqva
  split at heq
  · exact IsFlippableResult.noConfusion heq
  rename_i vd heqvd
  split at heq
  · exact IsFlippableResult.noConfusion heq
  rename_i vb heqvb
  rcases em (orient_2d vc va vd ≠ orient_2d vc va vb) with hP | hP
  · rcases em (orient_2d vd va vc ≠ orient_2d vd va vb) with hQ | hQ
    · norm_num [hP, hQ] at heq
      exact IsFlippableResult.noConfusion heq
    · norm_num [hP, hQ] at heq
      exact third_tri_check_ne_panicNoReflex self _ _ _ _ heq
  · rcases em (orient_2d vd va vc ≠ orient_2d vd va vb) with hQ | hQ
    · norm_num [hP, hQ] at heq
      exact third_tri_check_ne_panicNoReflex self _ _ _ _ heq
    · norm_num [hP, hQ] at heq
      exact IsFlippableResult.noConfusion heq

/-- The walk loop yields a result whenever the fuel covers the remaining
visit budget: each iteration either stops or increments num_visited, and the
guard fires once num_visited exceeds num_tets >> 2. -/
theorem locate_loop_isSome {β : Type} (choose_tri : List β → Option β)
    (nav : β → Nat → List β × Nat) (is_v_in_sphere : Nat → Except String Bool)
    (num_tets : Nat) :
    ∀ (fuel : Nat) (s : WalkState β),
      num_tets >>> 2 + 2 ≤ fuel + s.num_visited → 1 ≤ fuel →
      (locate_loop choose_tri nav is_v_in_sphere num_tets fuel s).isSome
        = true := by
  intro fuel
  induction fuel with
  | zero =>
    intro s h1 h2
    omega
  | succ n ih =>
    intro s h1 h2
    simp only [locate_loop]
    split
    · rfl
    rename_i hguard
    cases hchoose : choose_tri s.tris with
    | some tri =>
      refine ih _ ?_ ?_
      · show num_tets >>> 2 + 2 ≤ n + (s.num_visited + 1)
        omega
      · show 1 ≤ n
        simp only [not_lt] at hguard
        omega
    | none =>
      cases hs : is_v_in_sphere s.curr_tet_idx with
      | ok b => cases b <;> rfl
      | error e => rfl

/-- C6: the 3D visibility-walk point location terminates on every input:
with the visit budget tets_visitable = num_tets >> 2 checked before every
step and the visit counter incremented at every step, a fuel of
num_tets >> 2 + 2 loop iterations always suffices for locate_vis_walk to
deliver a result (so the unbounded source loop always exits), and as soon
as the visited count exceeds the budget the loop returns the locate error
instead of continuing. -/
theorem C6_locate_vis_walk_terminates {β : Type}
    (choose_tri : List β → Option β) (nav : β → Nat → List β × Nat)
    (is_v_in_sphere : Nat → Except String Bool)
    (get_tet_half_triangles : Nat → Except String (List β))
    (num_tets starting_tet_idx : Nat) :
    ((locate_vis_walk choose_tri nav is_v_in_sphere get_tet_half_triangles
        num_tets starting_tet_idx (num_tets >>> 2 + 2)).isSome = true)
    ∧ (∀ (fuel : Nat) (s : WalkState β), s.num_visited > num_tets >>> 2 →
        locate_loop choose_tri nav is_v_in_sphere num_tets (fuel + 1) s
          = some (.error "Could not find sphere containing point")) := by
  constructor
  · unfold locate_vis_walk
    cases hg : get_tet_half_triangles starting_tet_idx with
    | error e => rfl
    | ok tris =>
      refine locate_loop_isSome choose_tri nav is_v_in_sphere num_tets _ _ ?_ ?_
      · show num_tets >>> 2 + 2 ≤ num_tets >>> 2 + 2 + 0
        omega
      · omega
  · intro fuel s hvis
    simp only [locate_loop]
    rw [if_pos hvis]

/-- Witness for C6: a concrete instantiation with eight tetrahedra, a
navigation that always moves to the next tetrahedron and a choose function
that always walks; the walk still terminates within the budget, and a state
past the budget yields the error. -/
theorem C6_locate_vis_walk_terminates_witness :
    ((locate_vis_walk (fun l : List Nat => l.head?) (fun t _ => ([t + 1], t + 1))
        (fun _ => .ok true) (fun _ => .ok [0]) 8 0 (8 >>> 2 + 2)).isSome = true)
    ∧ (locate_loop (fun l : List Nat => l.head?) (fun t _ => ([t + 1], t + 1))
        (fun _ => .ok true) 8 1 ⟨[0], 0, 0, 3⟩
          = some (.error "Could not find sphere containing point")) := by
  have h := C6_locate_vis_walk_terminates (fun l : List Nat => l.head?)
    (fun t _ => ([t + 1], t + 1)) (fun _ => .ok true) (fun _ => .ok [0]) 8 0
  exact ⟨h.1, h.2 0 ⟨[0], 0, 0, 3⟩ (by decide)⟩

/-- Every violation indicator produced by the parallel check is 0 or 1. -/
theorem par_tri_violation_zero_or_one {α : Type} [LinearOrderedCommRing α]
    {self : Triangulation α} {wi : Bool} {t : Nat} {x : ℚ}
    (h : Triangulation.par_tri_violation self wi t = some x) :
    x = 0 ∨ x = 1 := by
  simp only [Triangulation.par_tri_violation] at h
  repeat' split at h
  all_goals
    first
    | exact Option.noConfusion h
    | exact Or.inl (Option.some.inj h).symm
    | exact Or.inr (Option.some.inj h).symm

/-- The parallel sum of violation indicators is nonnegative. -/
theorem par_sum_nonneg {α : Type} [LinearOrderedCommRing α]
    (self : Triangulation α) (wi : Bool) :
    ∀ (ts : List Nat) (s : ℚ), Triangulation.par_sum self wi ts = some s →
      0 ≤ s := by
  intro ts
  induction ts with
  | nil =>
    intro s h
    simp only [Triangulation.par_sum] at h
    obtain rfl : (0 : ℚ) = s := Option.some.inj h
    exact le_refl 0
  | cons t rest ih =>
    intro s h
    simp only [Triangulation.par_sum] at h
    split at h
    · exact Option.noConfusion h
    · rename_i x hx
      split at h
      · exact Option.noConfusion h
      · rename_i s2 hs2
        obtain rfl : x + s2 = s := Option.some.inj h
        have h1 : 0 ≤ x := by
          rcases par_tri_violation_zero_or_one hx with rfl | rfl
          · exact le_refl 0
          · exact zero_le_one
        exact add_nonneg h1 (ih s2 hs2)

/-- Per-triangle correspondence of the two verifications: a successful
sequential step keeps the flag up exactly when it was up and the parallel
indicator of the same slot is 0. -/
theorem step_par_correspondence {α : Type} [LinearOrderedCommRing α]
    {self : Triangulation α} {t : Nat} {acc acc2 : Bool × Nat} {x : ℚ}
    (hs : Triangulation.is_regular_step self t acc = some (.ok acc2))
    (hp : Triangulation.par_tri_violation self false t = some x) :
    acc2.1 = true ↔ acc.1 = true ∧ x = 0 := by
  simp only [Triangulation.is_regular_step] at hs
  simp only [Triangulation.par_tri_violation] at hp
  split at hs
  · rename_i hd
    obtain rfl : acc = acc2 := Except.ok.inj (Option.some.inj hs)
    rw [if_pos hd] at hp
    obtain rfl : (0 : ℚ) = x := Option.some.inj hp
    simp
  · rename_i hd
    rw [if_neg hd] at hp
    split at hs
    · exact Except.noConfusion (Option.some.inj hs)
    · rename_i flat hflat
      split at hs
      · exact Option.noConfusion hs
      · exact Except.noConfusion (Option.some.inj hs)
      · rename_i rv hrv
        split at hs
        · exact Option.noConfusion hs
        · exact Except.noConfusion (Option.some.inj hs)
        · rename_i uv huv
          obtain rfl := Except.ok.inj (Option.some.inj hs)
          cases flat <;> cases rv <;> cases uv <;>
            simp [hflat, hrv, huv] at hp <;>
            subst hp <;>
            norm_num

/-- Fold correspondence: over any slot list, a successful sequential fold
ends with the flag up exactly when it started up and the parallel sum over
the same list is 0. -/
theorem loop_par_correspondence {α : Type} [LinearOrderedCommRing α]
    (self : Triangulation α) :
    ∀ (ts : List Nat) (acc : Bool × Nat) (regF : Bool) (cntF : Nat) (S : ℚ),
      Triangulation.is_regular_loop self ts acc = some (.ok (regF, cntF)) →
      Triangulation.par_sum self false ts = some S →
      (regF = true ↔ acc.1 = true ∧ S = 0) := by
  intro ts
  induction ts with
  | nil =>
    intro acc regF cntF S hl hp
    simp only [Triangulation.is_regular_loop] at hl
    simp only [Triangulation.par_sum] at hp
    obtain rfl : (0 : ℚ) = S := Option.some.inj hp
    obtain rfl : acc = (regF, cntF) := Except.ok.inj (Option.some.inj hl)
    simp
  | cons t rest ih =>
    intro acc regF cntF S hl hp
    simp only [Triangulation.is_regular_loop] at hl
    simp only [Triangulation.par_sum] at hp
    split at hl
    · exact Option.noConfusion hl
    · exact Except.noConfusion (Option.some.inj hl)
    · rename_i acc2 hstep
      split at hp
      · exact Option.noConfusion hp
      · rename_i x hx
        split at hp
        · exact Option.noConfusion hp
        · rename_i s2 hsum
          obtain rfl : x + s2 = S := Option.some.inj hp
          have hx0 : 0 ≤ x := by
            rcases par_tri_violation_zero_or_one hx with rfl | rfl
            · exact le_refl 0
            · exact zero_le_one
          have hs0 : 0 ≤ s2 := par_sum_nonneg self false rest s2 hsum
          have hxy : x + s2 = 0 ↔ x = 0 ∧ s2 = 0 := by
            constructor
            · intro h0
              constructor <;> linarith
            · rintro ⟨rfl, rfl⟩
              norm_num
          have hstep2 := step_par_correspondence hstep hx
          have hih := ih acc2 regF cntF s2 hl hsum
          rw [hih, hstep2, hxy]
          tauto

set_option maxHeartbeats 800000 in
/-- C4: whenever both regularity verifications return a value (the
sequential is_regular an Ok pair, the parallel par_is_regular false a
fraction) on a state with at least one triangle, the boolean component of
the former is true exactly when the latter equals 1. -/
theorem C4_is_regular_iff_par_is_regular {α : Type} [LinearOrderedCommRing α]
    (self : Triangulation α) (b : Bool) (f r : ℚ)
    (hn : 1 ≤ self.tds.num_tris)
    (hreg : self.is_regular = some (.ok (b, f)))
    (hpar : self.par_is_regular false = some r) :
    b = true ↔ r = 1 := by
  simp only [Triangulation.is_regular] at hreg
  simp only [Triangulation.par_is_regular] at hpar
  split at hreg
  · exact Option.noConfusion hreg
  · exact Except.noConfusion (Option.some.inj hreg)
  · rename_i regular cnt hloop
    split at hpar
    · exact Option.noConfusion hpar
    · rename_i S hsum
      obtain rfl : 1 - S / (self.tds.num_tris : ℚ) = r := Option.some.inj hpar
      have hbf := Except.ok.inj (Option.some.inj hreg)
      have hb : regular = b := congrArg Prod.fst hbf
      have hmain := loop_par_correspondence self
        (List.range (self.tds.num_tris + self.tds.num_deleted_tris))
        (true, 0) regular cnt S hloop hsum
      have hmain2 : regular = true ↔ S = 0 := by simpa using hmain
      have hnum : (self.tds.num_tris : ℚ) ≠ 0 := Nat.cast_ne_zero.mpr (by omega)
      rw [← hb, hmain2, sub_eq_self, div_eq_zero_iff]
      constructor
      · exact Or.inl
      · rintro (h | h)
        · exact h
        · exact absurd h hnum

/-- C4 witness: on the seeded three-vertex triangulation both verifications
succeed, the sequential boolean is true, and the equivalence holds at the
computed values. -/
theorem C4_is_regular_iff_par_is_regular_witness :
    c4b = true ∧ (c4b = true ↔ c4r = 1) :=
  ⟨by decide,
   C4_is_regular_iff_par_is_regular c4tri c4b c4f c4r (by decide) rfl rfl⟩

end Rita
